import Mathlib

/-!
Verification of the learn-borrow-checker repository.

The repository is a set of lesson files demonstrating ownership, borrowing,
cloning, copying and drop semantics.  The observable behaviour of each lesson
function is a deterministic sequence of console prints, except where it touches
the file system or the clock; those effects are made explicit parameters.
Machine integers that appear (i32, u32) only carry small literal constants and
are never subject to arithmetic, so they are embedded as Int and Nat.

The "Bounded Random Integer Picker" described by the specification is not
present under src/ (only the lesson files are), so it is modelled from the
specification text, as marked on its definition.
-/

/-- A console event: a line printed to stdout or to stderr. -/
inductive Event where
  | out : String → Event
  | err : String → Event
deriving DecidableEq, Repr

/-- Rust Debug formatting of a vector of integers, such as `[1, 2, 3, 4, 5]`. -/
def fmtVec (v : List Int) : String :=
  "[" ++ String.intercalate ", " (v.map toString) ++ "]"

/-- The failure kind of the picker.  The specification names a single kind,
InvalidBound, raised when the bound is below one. -/
inductive PickError where
  | invalidBound
deriving DecidableEq, Repr

/-- Modelled from the spec: the function pick_random of the Bounded Random
Integer Picker is absent from src/ (the spec is its only description).  Per
spec section 4.1 it maps a bound and the state of the ambient entropy source to
a draw in the closed range from 1 to the bound, and per section 7 it raises
InvalidBound when the bound is below 1.  The entropy source state is embedded
as a natural number consumed by the call; a draw is one plus that entropy
reduced modulo the bound, which realises a surjection onto the range. -/
def pick_random (bound : Int) (entropy : Nat) : Except PickError Int :=
  if bound < 1 then
    .error .invalidBound
  else
    .ok (1 + (entropy : Int) % bound)

/-- src/example_data.rs, build_heap_data: pushes 1701, 401 and 8675309 onto a
freshly created vector and returns it. -/
def build_heap_data : List Int :=
  let my_data : List Int := []
  let my_data := my_data.concat 1701
  let my_data := my_data.concat 401
  let my_data := my_data.concat 8675309
  my_data

/-- src/example_data.rs, struct MyCopyData: a struct with a single u32 field
named count.  The field only ever holds the literal 42 and undergoes no
arithmetic, so it is embedded as Nat. -/
structure MyCopyData where
  count : Nat
deriving DecidableEq, Repr

/-- src/example_data.rs, build_copy_data: returns MyCopyData with count 42. -/
def build_copy_data : MyCopyData :=
  { count := 42 }

/-- src/lesson_1_scope.rs, pass_thru: takes ownership of a vector of i32 and
returns it unchanged. -/
def pass_thru (data : List Int) : List Int :=
  data

/-- src/lesson_1_scope.rs, consume: takes ownership of a vector and does
nothing with it. -/
def consume (_data : List Int) : Unit :=
  ()

/-- src/lesson_1_scope.rs, examples: every statement is a deterministic print
(or a move/conversion whose printed result is computed here), so the function
is embedded as the list of console events it emits, in program order. -/
def lesson_1_scope_examples : List Event :=
  -- 1) Scope and Ownership
  (let my_data1 : List Int := [1, 2, 3, 4, 5]
   [Event.out " --------------- lesson 1 example 1 ---------------",
    Event.out ("data1: " ++ fmtVec my_data1)])
  -- 2) Passing Ownership; consume prints nothing
  ++ (let my_data2 : List Int := [1, 2, 3, 4, 5]
      let _ := consume my_data2
      let _ := consume [1, 2, 3, 4, 5]
      [Event.out " --------------- lesson 1 example 2 ---------------",
       Event.out ("data2: " ++ fmtVec my_data2)])
  -- 3) Ownership transfer with move
  ++ (let s1 : List Int := [1, 2, 3, 4, 5]
      let s2 := s1
      [Event.out " --------------- lesson 1 example 3 ---------------",
       Event.out ("s2: " ++ fmtVec s2)])
  -- 4) Reclaiming ownership after passing, through pass_thru
  ++ (let my_data4 : List Int := [1, 2, 3, 4, 5]
      let my_data4 := pass_thru my_data4
      [Event.out " --------------- lesson 1 example 4 ---------------",
       Event.out ("data4: " ++ fmtVec my_data4)])
  -- 5) From: VecDeque::from moves the data; its Debug output prints the
  -- same elements in the same order
  ++ (let my_data5 : List Int := [1, 2, 3, 4, 5]
      let both_ends := my_data5
      [Event.out " --------------- lesson 1 example 5 ---------------",
       Event.out ("both_ends (From): " ++ fmtVec both_ends)])
  -- 6) Into
  ++ (let my_data6 : List Int := [1, 2, 3, 4, 5]
      let both_ends := my_data6
      [Event.out " --------------- lesson 1 example 6 ---------------",
       Event.out ("both_ends (Into): " ++ fmtVec both_ends)])
  -- 7) into_boxed_slice
  ++ (let my_data6_1 : List Int := [1, 2, 3, 4, 5]
      let boxed_slice := my_data6_1
      [Event.out " --------------- lesson 1 example 7 ---------------",
       Event.out ("boxed_slice: " ++ fmtVec boxed_slice)])
  -- 8) into_iter: one print per element
  ++ (let my_data7 : List Int := [1, 2, 3, 4, 5]
      Event.out " --------------- lesson 1 example 8 ---------------"
        :: my_data7.map (fun item => Event.out ("Iterated item: " ++ toString item)))
  -- 9.1) String::from_utf8 on the ASCII bytes of "hello" succeeds
  ++ (let data8 : List Nat := [104, 101, 108, 108, 111]
      let s := String.mk (data8.map Char.ofNat)
      [Event.out " --------------- lesson 1 example 9.1 ---------------",
       Event.out ("String from UTF-8: " ++ s)])
  -- 9.2) String::from_utf16 on the same scalar values; the vector is then
  -- still available and printed
  ++ (let unicode_values : List Nat := [104, 101, 108, 108, 111]
      let s := String.mk (unicode_values.map Char.ofNat)
      [Event.out ("String from UTF-16: " ++ s),
       Event.out (fmtVec (unicode_values.map (fun n => (n : Int))))])
  -- 10) as conversion from i32 to i64 preserves the value 42
  ++ (let number : Int := 42
      let number_as_i64 : Int := number
      [Event.out " --------------- lesson 1 example 10 ---------------",
       Event.out ("number (i32): " ++ toString number),
       Event.out ("number_as_i64 (i64): " ++ toString number_as_i64)])
  -- 11) Drop: dropping a Vec prints nothing
  ++ (let my_data_b : List Int := [1, 2, 3, 4, 5]
      [Event.out " --------------- lesson 1 example 11 ---------------",
       Event.out ("my_data_b: " ++ fmtVec my_data_b)])

/-- The observable outcome of running a piece of code: the console events it
emitted, and, when it aborted through a panic, the panic message.  A panic
stops execution, so the event list of a panicked outcome ends where the panic
happened. -/
structure Outcome where
  events : List Event
  panicked : Option String
deriving DecidableEq, Repr

/-- src/lesson_2_drop_cc.rs, examples 1 to 3: the prints before the file
block, in program order.  The local MyStruct of example 3 is dropped when its
scope closes, which prints the Drop message right after the Created line. -/
def lesson_2_pre_events : List Event :=
  (let d1 := "Immutable data"
   [Event.out " --------------- lesson 2 example 1 ---------------",
    Event.out ("Immutable struct: SimpleStruct \x7b data: \"" ++ d1 ++ "\" \x7d")])
  ++ (let d2 := "Mutable data"
      let d2m := d2 ++ " has been mutated!"
      [Event.out " --------------- lesson 2 example 2 ---------------",
       Event.out ("Before mutation: SimpleStruct \x7b data: \"" ++ d2 ++ "\" \x7d"),
       Event.out ("After mutation: SimpleStruct \x7b data: \"" ++ d2m ++ "\" \x7d")])
  ++ (let d3 := "Hello, Rust!"
      [Event.out " --------------- lesson 2 example 3 ---------------",
       Event.out ("Created: MyStruct \x7b data: \"" ++ d3 ++ "\" \x7d"),
       Event.out ("Dropping MyStruct with data: " ++ d3)])

/-- src/lesson_2_drop_cc.rs, examples 4 to 9: the prints after the file block,
in program order.  The only non-deterministic print is the elapsed time of the
clone in example 9, delivered by the clock and passed in as cloneTime. -/
def lesson_2_post_events (cloneTime : String) : List Event :=
  -- 4) Copy trait
  [Event.out " --------------- lesson 2 example 4 ---------------",
   Event.out "Original: 42",
   Event.out "Copied: 42",
   Event.out "42",
   Event.out "42"]
  -- 5) Clone trait
  ++ (let d5 := "Clone me!"
      [Event.out " --------------- lesson 2 example 5 ---------------",
       Event.out ("Original: \"" ++ d5 ++ "\""),
       Event.out ("Cloned: \"" ++ d5 ++ "\""),
       Event.out "hello"])
  -- 6) to_owned
  ++ (let my_data_a : List Int := [1, 2, 3, 4, 5]
      let my_data_a_owned := my_data_a
      [Event.out " --------------- lesson 2 example 6 ---------------",
       Event.out ("my_data_a (original): " ++ fmtVec my_data_a),
       Event.out ("my_data_a_owned (to_owned): " ++ fmtVec my_data_a_owned)])
  -- 7) only the header is printed
  ++ [Event.out " --------------- lesson 2 example 7 ---------------"]
  -- 8) Combining traits with struct
  ++ [Event.out " --------------- lesson 2 example 8 ---------------",
      Event.out "Point1: 1 2",
      Event.out "Point2: 1 2",
      Event.out "Point3 before mutation: Point \x7b x: 3, y: 4 \x7d",
      Event.out "Point3 after mutation: Point \x7b x: 5, y: 4 \x7d"]
  -- 9) cloning a vector of one million zeros preserves its length
  ++ (let large : List Int := List.replicate 1000000 0
      [Event.out " --------------- lesson 2 example 9 ---------------",
       Event.out ("Time taken to clone: " ++ cloneTime),
       Event.out ("Original data length: " ++ toString large.length),
       Event.out ("Cloned data length: " ++ toString large.length)])

/-- src/lesson_2_drop_cc.rs, examples: the function prints examples 1 to 3,
then runs the file block of example 3.1, then prints examples 4 to 9.  The
file block matches on File::create of ./src/lesson_2.tmp: on success it writes
to the file with write_all followed by expect, which panics with the message
"Unable to write to file" (plus the Debug text of the error) when the write
fails; on failure it prints the error to stderr with eprintln and goes on.
The create and write results are parameters (the error payload is the Debug
text of the io error), as is the elapsed-time text of example 9. -/
def lesson_2_drop_cc_examples (createRes writeRes : Except String Unit)
    (cloneTime : String) : Outcome :=
  match createRes with
  | .ok _ =>
    match writeRes with
    | .ok _ => { events := lesson_2_pre_events ++ lesson_2_post_events cloneTime,
                 panicked := none }
    | .error we => { events := lesson_2_pre_events,
                     panicked := some ("Unable to write to file: " ++ we) }
  | .error e =>
    { events := lesson_2_pre_events
        ++ [Event.err ("Error opening file: " ++ e)]
        ++ lesson_2_post_events cloneTime,
      panicked := none }

/-- src/lesson_3_borrow.rs, examples: every statement is a deterministic print
or a string mutation through a reference (computed here), so the function is
embedded as the list of console events it emits, in program order.  In example
5 the two owned MyCloneableStruct values are dropped when the block closes,
printing the Drop message twice; in example 8 the value is leaked through
Box::leak, so no Drop message is printed. -/
def lesson_3_borrow_examples : List Event :=
  -- 1) Immutable references
  (let data := "Hello, Rust!"
   [Event.out " --------------- lesson 3 example 1 ---------------",
    Event.out ("reference1: " ++ data),
    Event.out ("reference2: " ++ data),
    Event.out ("data: " ++ data)])
  -- 2) Mutable reference appends ", Rust!"
  ++ (let data := "Hello"
      let data := data ++ ", Rust!"
      [Event.out " --------------- lesson 3 example 2 ---------------",
       Event.out ("reference: " ++ data),
       Event.out ("data: " ++ data)])
  -- 3) Mutation before immutable borrows, then a mutable borrow appends "!"
  ++ (let data := "Hello"
      let data := data ++ " World"
      let data4 := data ++ "!"
      [Event.out " --------------- lesson 3 example 3 ---------------",
       Event.out ("reference1: " ++ data),
       Event.out ("reference2: " ++ data),
       Event.out ("reference4: " ++ data4)])
  -- 4) Scoped borrows
  ++ (let data := "Hello"
      let data2 := data ++ ", Rust!"
      [Event.out " --------------- lesson 3 example 4 ---------------",
       Event.out ("reference1: " ++ data),
       Event.out ("reference2: " ++ data2)])
  -- 5) Clone with borrowing, then two drops at the end of the block
  ++ (let d := "Hello"
      [Event.out " --------------- lesson 3 example 5 ---------------",
       Event.out ("original: MyCloneableStruct \x7b data: \"" ++ d ++ "\" \x7d"),
       Event.out ("borrowed: MyCloneableStruct \x7b data: \"" ++ d ++ "\" \x7d"),
       Event.out ("cloned: MyCloneableStruct \x7b data: \"" ++ d ++ "\" \x7d"),
       Event.out ("Dropping MyCloneableStruct with data: " ++ d),
       Event.out ("Dropping MyCloneableStruct with data: " ++ d)])
  -- 6) Copy with borrowing; MyCopyableStruct implements no Drop
  ++ [Event.out " --------------- lesson 3 example 6 ---------------",
      Event.out "original: 42",
      Event.out "borrowed: 42",
      Event.out "copied: 42"]
  -- 7) Box on the heap; Debug of a Box prints its contents
  ++ [Event.out " --------------- lesson 3 example 7 ---------------",
      Event.out "reference: MyCopyableStruct \x7b my_number: 42 \x7d"]
  -- 8) Box::leak extends the lifetime, so nothing is dropped
  ++ (let d := "Hello"
      let d := d ++ " - Extended Lifetime"
      [Event.out " --------------- lesson 3 example 8 ---------------",
       Event.out ("static_ref: MyCloneableStruct \x7b data: \"" ++ d ++ "\" \x7d")])
  -- 9) Borrowing in a function
  ++ (let data := "Hello, Rust!"
      [Event.out " --------------- lesson 3 example 9 ---------------",
       Event.out ("Data: " ++ data),
       Event.out ("After function call: " ++ data)])
  -- 10) Mutable borrowing in a function
  ++ (let data := "Hello"
      let data := data ++ ", Rust!"
      [Event.out " --------------- lesson 3 example 10 ---------------",
       Event.out ("After function call: " ++ data)])
  -- 11) Borrowing in the main thread only
  ++ (let data := "Hello"
      [Event.out " --------------- lesson 3 example 11 ---------------",
       Event.out ("Main thread reference: " ++ data)])

/-- src/lesson_4_bonus.rs, examples: deterministic prints demonstrating Self,
AsRef, AsMut, Deref, DerefMut, Ref and RefMut; no headers are printed.  The
AsMut example upper-cases the string in place; the RefCell example appends to
the string through a RefMut after the Ref was dropped. -/
def lesson_4_bonus_examples : List Event :=
  (let s := "Hello, Rust!"
   [Event.out ("Data: " ++ s),
    Event.out ("s_ref: " ++ s),
    Event.out ("s_mut: " ++ String.map Char.toUpper s)])
  ++ (let x := "Hello, Rust!"
      let y := x ++ " How are you?"
      [Event.out ("Dereferenced: " ++ x),
       Event.out ("Mutably Dereferenced: " ++ y)])
  ++ (let data := "Hello, Rust!"
      let data2 := data ++ " How are you?"
      [Event.out ("Borrowed: " ++ data),
       Event.out ("Mutably Borrowed: " ++ data2)])

/-- src/main.rs, main: calls the examples function of lesson 1, lesson 2,
lesson 3 and lesson 4, in that order.  A panic inside lesson 2 aborts the
program, so the later lessons then emit nothing. -/
def main_run (createRes writeRes : Except String Unit) (cloneTime : String) :
    Outcome :=
  let o2 := lesson_2_drop_cc_examples createRes writeRes cloneTime
  match o2.panicked with
  | some m => { events := lesson_1_scope_examples ++ o2.events, panicked := some m }
  | none =>
    { events := lesson_1_scope_examples ++ o2.events
        ++ lesson_3_borrow_examples ++ lesson_4_bonus_examples,
      panicked := none }

/-- Claim C1: for every integer bound with bound at least 1, every draw r
returned by pick_random bound satisfies 1 <= r <= bound, whatever the state of
the entropy source. -/
theorem pick_random_in_range (bound : Int) (entropy : Nat) (r : Int)
    (hb : 1 ≤ bound) (h : pick_random bound entropy = .ok r) :
    1 ≤ r ∧ r ≤ bound := by
  unfold pick_random at h
  rw [if_neg (by omega)] at h
  have hr : 1 + (entropy : Int) % bound = r := by injection h
  have h0 : 0 ≤ (entropy : Int) % bound := Int.emod_nonneg _ (by omega)
  have h1 : (entropy : Int) % bound < bound := Int.emod_lt_of_pos _ (by omega)
  omega

/-- Witness for C1: with bound 3 and entropy 7 the draw is 2, which lies in
the range from 1 to 3. -/
theorem pick_random_in_range_witness :
    pick_random 3 7 = Except.ok 2 ∧ (1 ≤ (2 : Int) ∧ (2 : Int) ≤ 3) :=
  ⟨by rfl, pick_random_in_range 3 7 2 (by decide) (by rfl)⟩

/-- Claim C3: for every integer bound below 1 (zero or negative),
pick_random bound raises the InvalidBound failure rather than returning any
integer value, whatever the state of the entropy source. -/
theorem pick_random_invalid_bound (bound : Int) (entropy : Nat)
    (hb : bound < 1) :
    pick_random bound entropy = .error .invalidBound := by
  unfold pick_random
  rw [if_pos hb]

/-- Witness for C3: pick_random at bound 0 signals InvalidBound. -/
theorem pick_random_invalid_bound_witness :
    pick_random 0 5 = Except.error PickError.invalidBound :=
  pick_random_invalid_bound 0 5 (by decide)

/-- Claim C4: pick_random 1 always returns 1, for every possible state of the
entropy source. -/
theorem pick_random_one (entropy : Nat) :
    pick_random 1 entropy = .ok 1 := by
  unfold pick_random
  rw [if_neg (by omega)]
  rw [Int.emod_one]
  norm_num

/-- Claim C5: for every bound above 1, two calls to pick_random at that bound
are not required to return distinct values: there are two different entropy
states under which the two draws coincide, so no theorem asserting inequality
of two arbitrary draws holds. -/
theorem pick_random_draws_can_repeat (bound : Int) (hb : 1 < bound) :
    ∃ e1 e2 : Nat, e1 ≠ e2 ∧ pick_random bound e1 = pick_random bound e2 := by
  refine ⟨0, bound.toNat, by omega, ?_⟩
  have hnb : ¬ bound < 1 := by omega
  have ht : ((bound.toNat : Nat) : Int) % bound = 0 := by
    rw [Int.toNat_of_nonneg (by omega)]
    exact Int.emod_self
  simp only [pick_random, if_neg hnb, ht, Nat.cast_zero, Int.zero_emod]

/-- Witness for C5: at bound 2 there are two different entropy states giving
the same draw. -/
theorem pick_random_draws_can_repeat_witness :
    ∃ e1 e2 : Nat, e1 ≠ e2 ∧ pick_random 2 e1 = pick_random 2 e2 :=
  pick_random_draws_can_repeat 2 (by decide)

/-- Claim C6: build_heap_data takes no input and on every call returns the
same fixed vector of integers, namely 1701, 401 and 8675309 in that order.
It is embedded as a constant, so being the same on every call is purity of
the embedding; the theorem checks the value. -/
theorem build_heap_data_fixed : build_heap_data = [1701, 401, 8675309] := by
  rfl

/-- Claim C7: main invokes exactly the four lesson functions, lesson 1 scope,
lesson 2 drop clone copy, lesson 3 borrow and lesson 4 bonus, sequentially in
that order, and no lesson depends on another beyond this sequential
invocation: on every run whose file write succeeds, the observable behaviour
of main is exactly the concatenation of the four lesson outputs in that
order, each lesson contributing its own standalone output. -/
theorem main_invokes_lessons_in_order (createRes : Except String Unit)
    (cloneTime : String) :
    main_run createRes (.ok ()) cloneTime =
      { events := lesson_1_scope_examples
          ++ (lesson_2_drop_cc_examples createRes (.ok ()) cloneTime).events
          ++ lesson_3_borrow_examples ++ lesson_4_bonus_examples,
        panicked := none } := by
  cases createRes <;> rfl

/-- Claim C8 (amended): when creating ./src/lesson_2.tmp fails, the lesson 2
examples function handles the failure only by printing an error message to
stderr and continues normally, completing without aborting; when creation
succeeds, the function completes provided the subsequent file write succeeds.
(A failing write under a successful creation aborts through the expect call,
see the counterexample theorem.) -/
theorem lesson_2_error_handling (e : String) (w : Except String Unit)
    (t : String) (c : Except String Unit) (t2 : String) :
    (lesson_2_drop_cc_examples (.error e) w t).panicked = none
    ∧ (lesson_2_drop_cc_examples (.error e) w t).events
        = lesson_2_pre_events
          ++ [Event.err ("Error opening file: " ++ e)]
          ++ lesson_2_post_events t
    ∧ (lesson_2_drop_cc_examples c (.ok ()) t2).panicked = none := by
  refine ⟨rfl, rfl, ?_⟩
  cases c <;> rfl

/-- Counterexample for C8 as stated: it is not the case that the lesson 2
examples function returns for every outcome of file creation.  When creation
succeeds but the following write fails, the expect call panics and the
function aborts instead of returning. -/
theorem lesson_2_write_failure_aborts :
    (lesson_2_drop_cc_examples (.ok ()) (.error "os error 28") "1ms").panicked
      = some "Unable to write to file: os error 28" := by
  rfl

/-- Claim C9: pass_thru is the identity on integer vectors: for every vector
v, pass_thru v returns exactly v, element for element and in the same
order. -/
theorem pass_thru_identity (v : List Int) : pass_thru v = v := by
  rfl

/-- Claim C10: build_copy_data takes no input and on every call returns a
MyCopyData value whose count field equals 42.  It is embedded as a constant,
so being the same on every call is purity of the embedding; the theorem
checks the field. -/
theorem build_copy_data_count : build_copy_data.count = 42 := by
  rfl
